import Mathlib

/-
Verification of the session and per-day-record synchronization pattern of the
Bethe-El journaling application.

The development shallowly embeds the two context providers:
  * the book-review daily-record context (BookReviewContext): its provider
    state, the identity-change effect, the fetch of the record for today, and
    the save operation that updates-if-exists else inserts;
  * the session context (AuthContext): identity derivation from a backend
    session payload and the public operations checkSession, login, signup,
    logout, resetPassword and updatePassword.

Remote calls are modelled by passing the backend outcome as an explicit
argument; each operation is a pure function from the outcome and the current
provider state to the next state together with the emitted notifications
(toasts), the navigation it triggers, the write it issues against the backend
table, and whether an error escapes to the caller.
-/

namespace BetheEl

/-- A transient user-facing notification, as shown via the toast library. -/
inductive Toast where
  | success (msg : String)
  | error (msg : String)
deriving DecidableEq

/-! ## Book-review daily-record context -/

/-- A row of the backend table of book reviews, with at least the columns the
application reads and writes: the backend-assigned id, the owning user id, the
day-granularity ISO date string, and the free-text content. -/
structure Row where
  id : Nat
  user_id : String
  date : String
  review_text : String
deriving DecidableEq

/-- Local state of the book-review provider: the visible record for today and
the loading flag. -/
structure BRState where
  todayBookReview : Option String
  isLoadingBookReview : Bool
deriving DecidableEq

/-- The rows of the table matching the equality filters used by the context:
eq user_id and eq date. -/
def matching (uid d : String) (db : List Row) : List Row :=
  db.filter (fun r => r.user_id == uid && r.date == d)

/-- Outcome of a select-single query: a row when exactly one row matches, the
PGRST116 condition when the row multiplicity is not one (treated by the code as
not found), or any other backend failure carrying a message. -/
inductive SingleResult where
  | row (r : Row)
  | pgrst116
  | failure (msg : String)
deriving DecidableEq

/-- Semantics of the select single query against the table: exactly one
matching row yields that row, any other multiplicity yields the PGRST116
condition. -/
def selectSingle (uid d : String) (db : List Row) : SingleResult :=
  match matching uid d db with
  | [r] => SingleResult.row r
  | _ => SingleResult.pgrst116

/-- Result of running an effect of the book-review provider: the next local
state, the toasts it emitted, and whether an error escaped to the caller. -/
structure FetchOutcome where
  state : BRState
  toasts : List Toast
  thrown : Bool
deriving DecidableEq

/-- Resolution of fetchTodayBookReview once the backend select answers.
Follows the source: a PGRST116 error is logged and treated as no data; the
visible record is set to the selected review text, with an empty text coerced
to null by the or-null expression; any other error is thrown inside the try,
caught, and reported by an error toast without escaping; the finally clause
always ends loading. -/
def fetchTodayBookReviewResolve (res : SingleResult) (s : BRState) : FetchOutcome :=
  match res with
  | SingleResult.row r =>
      { state := { todayBookReview := if r.review_text = "" then none else some r.review_text
                 , isLoadingBookReview := false }
      , toasts := [], thrown := false }
  | SingleResult.pgrst116 =>
      { state := { todayBookReview := none, isLoadingBookReview := false }
      , toasts := [], thrown := false }
  | SingleResult.failure _ =>
      { state := { s with isLoadingBookReview := false }
      , toasts := [Toast.error "Failed to load today\x27s book review"], thrown := false }

/-- Synchronous part of the effect that runs when the identity changes. With a
user present it calls fetchTodayBookReview, whose body performs no state update
before awaiting the backend, so the state is unchanged and a fetch is pending
(the returned flag); with no user it clears the record and ends loading at
once. -/
def identityChangeSync (user : Option String) (s : BRState) : BRState × Bool :=
  match user with
  | some _ => (s, true)
  | none => ({ todayBookReview := none, isLoadingBookReview := false }, false)

/-- A write issued against the book-review table by the save operation: an
insert carrying the user id, the date and the review text, or an update of the
review text addressed by row id. -/
inductive SaveOp where
  | insertOp (user_id d review_text : String)
  | updateOp (id : Nat) (review_text : String)
deriving DecidableEq

/-- The write the save operation chooses after its existence lookup: update by
the id of the existing entry when the lookup returned one, insert otherwise
(the PGRST116 condition counts as no existing entry). -/
def chooseOp (uid today review : String) (db : List Row) : SaveOp :=
  match selectSingle uid today db with
  | SingleResult.row r => SaveOp.updateOp r.id review
  | _ => SaveOp.insertOp uid today review

/-- Update of a single row by id, leaving all other columns and rows alone. -/
def updRow (i : Nat) (t : String) (r : Row) : Row :=
  if r.id = i then { r with review_text := t } else r

/-- Effect of a successful write on the table; the backend assigns freshId to
an inserted row. -/
def applyOp (freshId : Nat) (op : SaveOp) (db : List Row) : List Row :=
  match op with
  | SaveOp.insertOp u d t => db ++ [{ id := freshId, user_id := u, date := d, review_text := t }]
  | SaveOp.updateOp i t => db.map (updRow i t)

/-- Which backend step of the save operation fails, if any: the existence
lookup failing with a code other than PGRST116, or the chosen insert or update
returning an error. -/
inductive BackendFault where
  | ok
  | lookupFail (msg : String)
  | writeFail (msg : String)
deriving DecidableEq

/-- Result of a call to saveBookReviewForToday: the next local state, the
table contents after the call, the write operation the call issued if any, the
toasts, and whether the error was re-thrown to the caller. -/
structure SaveOutcome where
  state : BRState
  db : List Row
  op : Option SaveOp
  toasts : List Toast
  thrown : Bool
deriving DecidableEq

/-- Shallow embedding of saveBookReviewForToday. With no user it shows an
error toast and returns before entering the try block, so nothing else
changes. Otherwise it sets loading, looks up an existing entry for (user,
today), throws on a lookup error whose code is not PGRST116, issues an update
by the existing id or else an insert of (user id, today, review), and on a
write error throws; thrown errors are caught, reported by an error toast and
re-thrown, while on success the local record is set to the review and a
success toast is shown; the finally clause ends loading on every path through
the try block. -/
def saveBookReviewForToday (user : Option String) (today review : String)
    (fault : BackendFault) (freshId : Nat) (db : List Row) (s : BRState) : SaveOutcome :=
  match user with
  | none =>
      { state := s, db := db, op := none
      , toasts := [Toast.error "You must be logged in to save a book review"]
      , thrown := false }
  | some uid =>
      match fault with
      | BackendFault.lookupFail _ =>
          { state := { s with isLoadingBookReview := false }, db := db, op := none
          , toasts := [Toast.error "Failed to save book review"], thrown := true }
      | BackendFault.writeFail _ =>
          { state := { s with isLoadingBookReview := false }, db := db
          , op := some (chooseOp uid today review db)
          , toasts := [Toast.error "Failed to save book review"], thrown := true }
      | BackendFault.ok =>
          { state := { todayBookReview := some review, isLoadingBookReview := false }
          , db := applyOp freshId (chooseOp uid today review db) db
          , op := some (chooseOp uid today review db)
          , toasts := [Toast.success "Book review saved successfully"], thrown := false }

/-! ## Session context -/

/-- The backend session payload as consumed by the code: the user id and the
possibly absent email, phone and metadata name. -/
structure Session where
  id : String
  email : Option String
  phone : Option String
  metaName : Option String
deriving DecidableEq

/-- The derived identity stored in the session context. -/
structure Identity where
  id : String
  name : String
  email : String
  phone : String
deriving DecidableEq

/-- JavaScript or-default on a possibly absent string: an absent or empty
string is falsy and yields the default. -/
def strOrElse (a : Option String) (b : String) : String :=
  match a with
  | some s => if s = "" then b else s
  | none => b

/-- Characters of a string before the first at sign. -/
def beforeAtSign : List Char → List Char
  | [] => []
  | c :: rest => if c = '@' then [] else c :: beforeAtSign rest

/-- The local part of an email address, as computed by splitting on the at
sign and taking the first piece. -/
def emailLocalPartStr (e : String) : String :=
  String.mk (beforeAtSign e.data)

/-- Display-name derivation of the source: the metadata name, or else the
local part of the email, or else the literal User, each step skipping a falsy
(absent or empty) value. -/
def deriveName (metaName email : Option String) : String :=
  strOrElse metaName (strOrElse (email.map emailLocalPartStr) "User")

/-- The display-name derivation as the specification words it: the session
metadata name when present, and otherwise the local part of the email. Stated
for comparison with deriveName, which is taken from the source. -/
def specDeriveName (metaName email : Option String) : Option String :=
  match metaName with
  | some n => some n
  | none => email.map emailLocalPartStr

/-- Identity derivation applied to every session payload received, at startup
and in the session-change listener: name by deriveName, email and phone
defaulting to the empty string. -/
def deriveIdentity (sess : Session) : Identity :=
  { id := sess.id
  , name := deriveName sess.metaName sess.email
  , email := sess.email.getD ""
  , phone := sess.phone.getD "" }

/-- Local state of the session context. -/
structure AuthState where
  user : Option Identity
  isAuthenticated : Bool
  isLoading : Bool
  error : Option String
deriving DecidableEq

/-- Result of a session-context operation: the next state, toasts, the route
navigated to if any, and whether an error escaped to the caller. -/
structure AuthOutcome where
  state : AuthState
  toasts : List Toast
  navTo : Option String
  thrown : Bool
deriving DecidableEq

/-- Shallow embedding of checkSession: on success with a session, derive the
identity and mark authenticated; on success with no session, clear both; on
failure, record the message and clear both; the finally clause always ends
loading; no toast and no navigation on any path, and nothing escapes. -/
def checkSession (res : Except String (Option Session)) (s : AuthState) : AuthOutcome :=
  match res with
  | Except.ok (some sess) =>
      { state := { s with
                     user := some (deriveIdentity sess)
                     isAuthenticated := true
                     isLoading := false }
      , toasts := [], navTo := none, thrown := false }
  | Except.ok none =>
      { state := { s with user := none, isAuthenticated := false, isLoading := false }
      , toasts := [], navTo := none, thrown := false }
  | Except.error msg =>
      { state := { s with
                     error := some msg
                     user := none
                     isAuthenticated := false
                     isLoading := false }
      , toasts := [], navTo := none, thrown := false }

/-- Shallow embedding of the session-change listener: with a session payload
it re-derives the identity and marks authenticated, otherwise it clears both;
it always ends loading and touches no other field. -/
def onAuthStateChange (session : Option Session) (s : AuthState) : AuthState :=
  match session with
  | some sess =>
      { s with user := some (deriveIdentity sess), isAuthenticated := true, isLoading := false }
  | none => { s with user := none, isAuthenticated := false, isLoading := false }

/-- Outcome of the backend credential verification: success, carrying whether
a user object is present in the answer, or a failure message. -/
inductive LoginResult where
  | ok (hasUser : Bool)
  | err (msg : String)
deriving DecidableEq

/-- Shallow embedding of login: clears the error, delegates to the backend; on
success with a user it shows a welcome toast and navigates to the dashboard;
on failure it records the message and shows an error toast (with a fixed
fallback text for an empty message); the finally clause ends loading and no
error escapes. -/
def login (res : LoginResult) (s : AuthState) : AuthOutcome :=
  match res with
  | LoginResult.ok hasUser =>
      { state := { s with error := none, isLoading := false }
      , toasts := if hasUser then [Toast.success "Welcome back!"] else []
      , navTo := if hasUser then some "/dashboard" else none
      , thrown := false }
  | LoginResult.err msg =>
      { state := { s with error := some msg, isLoading := false }
      , toasts := [Toast.error (if msg = "" then "Failed to log in" else msg)]
      , navTo := none, thrown := false }

/-- Whether the second string occurs as a contiguous substring of the first,
as the JavaScript includes test used on the signup error message. -/
def matchesAt : List Char → List Char → Bool
  | [], _ => true
  | _ :: _, [] => false
  | p :: ps, c :: cs => p == c && matchesAt ps cs

/-- Substring occurrence over the character lists of two strings. -/
def containsSub : List Char → List Char → Bool
  | s, pat =>
    match s with
    | [] => matchesAt pat []
    | _ :: rest => matchesAt pat s || containsSub rest pat

/-- String-level wrapper for the substring test. -/
def strContains (s pat : String) : Bool :=
  containsSub s.data pat.data

/-- Outcome of the backend sign-up call: an error message, or success carrying
the new user id, or success with no user object in the answer. -/
inductive SignUpResult where
  | err (msg : String)
  | okUser (uid : String)
  | okNoUser
deriving DecidableEq

/-- Outcome of the profile upsert performed after a successful sign-up. -/
inductive ProfileWriteResult where
  | ok
  | err (msg : String)
deriving DecidableEq

/-- A row of the profiles table as written by signup. -/
structure ProfileRow where
  id : String
  phone : String
deriving DecidableEq

/-- The discriminated result signup resolves with when an account was
created. -/
structure SignupRet where
  isNewAccount : Bool
deriving DecidableEq

/-- Result of a call to signup: the next state, toasts, navigation, the
profile upsert the call issued if any, the resolved value (null modelled as
none), and whether an error escaped. -/
structure SignupOutcome where
  state : AuthState
  toasts : List Toast
  navTo : Option String
  profileUpsert : Option ProfileRow
  ret : Option SignupRet
  thrown : Bool
deriving DecidableEq

/-- Shallow embedding of signup. A backend error whose message includes the
already-registered text sets a distinct error message, shows it as a toast,
navigates to the login route and returns null without any profile write; any
other backend error is thrown, caught, recorded and reported (with fixed
fallback texts for an empty message) and returns null. On success with a user,
the call upserts a profile row of the new id and the given phone; a failing
upsert is thrown, caught, recorded and returns null, while a successful one
shows a confirmation toast and returns the new-account result. Success without
a user returns null. The finally clause ends loading on every path. -/
def signup (phone : String) (res : SignUpResult) (pw : ProfileWriteResult)
    (s : AuthState) : SignupOutcome :=
  match res with
  | SignUpResult.err msg =>
      if strContains msg "User already registered" then
        { state := { s with
                       error := some "This email is already registered. Please log in instead."
                       isLoading := false }
        , toasts := [Toast.error "This email is already registered. Please log in instead."]
        , navTo := some "/login?email-exists=true"
        , profileUpsert := none, ret := none, thrown := false }
      else
        { state := { s with
                       error := some (if msg = "" then "An unexpected error occurred" else msg)
                       isLoading := false }
        , toasts := [Toast.error (if msg = "" then "Failed to sign up" else msg)]
        , navTo := none, profileUpsert := none, ret := none, thrown := false }
  | SignUpResult.okUser uid =>
      match pw with
      | ProfileWriteResult.ok =>
          { state := { s with error := none, isLoading := false }
          , toasts := [Toast.success "Please check your email for a confirmation link to complete your registration."]
          , navTo := none
          , profileUpsert := some { id := uid, phone := phone }
          , ret := some { isNewAccount := true }, thrown := false }
      | ProfileWriteResult.err msg =>
          { state := { s with
                         error := some (if msg = "" then "An unexpected error occurred" else msg)
                         isLoading := false }
          , toasts := [Toast.error (if msg = "" then "Failed to sign up" else msg)]
          , navTo := none
          , profileUpsert := some { id := uid, phone := phone }
          , ret := none, thrown := false }
  | SignUpResult.okNoUser =>
      { state := { s with error := none, isLoading := false }
      , toasts := [], navTo := none, profileUpsert := none, ret := none, thrown := false }

/-- Shallow embedding of logout: on success a goodbye toast and navigation to
the login route; on failure an error toast only, the error state untouched;
the finally clause ends loading and no error escapes. -/
def logout (res : Option String) (s : AuthState) : AuthOutcome :=
  match res with
  | none =>
      { state := { s with isLoading := false }
      , toasts := [Toast.success "You\x27ve been logged out"]
      , navTo := some "/login", thrown := false }
  | some msg =>
      { state := { s with isLoading := false }
      , toasts := [Toast.error (if msg = "" then "Failed to log out" else msg)]
      , navTo := none, thrown := false }

/-- Shallow embedding of resetPassword: clears the error, then a success toast
or a recorded and reported failure; the finally clause ends loading and no
error escapes. -/
def resetPassword (res : Option String) (s : AuthState) : AuthOutcome :=
  match res with
  | none =>
      { state := { s with error := none, isLoading := false }
      , toasts := [Toast.success "Password reset Link have been sent to your email"]
      , navTo := none, thrown := false }
  | some msg =>
      { state := { s with error := some msg, isLoading := false }
      , toasts := [Toast.error (if msg = "" then "Failed to send reset instructions" else msg)]
      , navTo := none, thrown := false }

/-- Shallow embedding of updatePassword: clears the error, then on success a
toast and navigation to the login route, or a recorded and reported failure;
the finally clause ends loading and no error escapes. -/
def updatePassword (res : Option String) (s : AuthState) : AuthOutcome :=
  match res with
  | none =>
      { state := { s with error := none, isLoading := false }
      , toasts := [Toast.success "Password has been updated successfully"]
      , navTo := some "/login", thrown := false }
  | some msg =>
      { state := { s with error := some msg, isLoading := false }
      , toasts := [Toast.error (if msg = "" then "Failed to update password" else msg)]
      , navTo := none, thrown := false }

end BetheEl

/-! ## Helper lemmas about the table filters -/

namespace BetheEl

theorem matching_append (uid d : String) (l1 l2 : List Row) :
    matching uid d (l1 ++ l2) = matching uid d l1 ++ matching uid d l2 := by
  simp [matching]

theorem matching_insert_self (uid d t : String) (i : Nat) :
    matching uid d [{ id := i, user_id := uid, date := d, review_text := t }]
      = [{ id := i, user_id := uid, date := d, review_text := t }] := by
  simp [matching]

theorem pred_updRow (uid d : String) (i : Nat) (t : String) (r : Row) :
    ((updRow i t r).user_id == uid && (updRow i t r).date == d)
      = (r.user_id == uid && r.date == d) := by
  unfold updRow
  split <;> rfl

theorem matching_map_updRow (uid d : String) (i : Nat) (t : String) (db : List Row) :
    matching uid d (db.map (updRow i t)) = (matching uid d db).map (updRow i t) := by
  induction db with
  | nil => rfl
  | cons r rest ih =>
      simp only [matching, List.map_cons, List.filter_cons, pred_updRow] at *
      cases hr : (r.user_id == uid && r.date == d) <;> simp [hr, ih]

theorem selectSingle_of_no_match (uid d : String) (db : List Row)
    (h : matching uid d db = []) : selectSingle uid d db = SingleResult.pgrst116 := by
  unfold selectSingle
  rw [h]

theorem selectSingle_of_one_match (uid d : String) (db : List Row) (r : Row)
    (h : matching uid d db = [r]) : selectSingle uid d db = SingleResult.row r := by
  unfold selectSingle
  rw [h]

/-! ## Claim theorems -/

/-- Claim C1: saveBookReviewForToday preserves the at-most-one-record
invariant for every (user, date) pair. Starting from a table holding at most
one record for (user, today): with every backend outcome the table keeps at
most one; when no record exists, the fault-free call issues exactly one insert
carrying that user id, today, and the given content, and the table then holds
exactly one matching record; when one record exists, the call issues an update
addressed by that record id and the matching count stays one, so repeated
same-day saves keep the count at 1. -/
theorem save_preserves_one_record_per_user_date
    (uid today review : String) (freshId : Nat) (db : List Row) (s : BRState)
    (hinv : (matching uid today db).length ≤ 1) :
    (∀ fault, (matching uid today
        (saveBookReviewForToday (some uid) today review fault freshId db s).db).length ≤ 1) ∧
    (matching uid today db = [] →
        (saveBookReviewForToday (some uid) today review BackendFault.ok freshId db s).op
            = some (SaveOp.insertOp uid today review) ∧
        (saveBookReviewForToday (some uid) today review BackendFault.ok freshId db s).db
            = db ++ [{ id := freshId, user_id := uid, date := today, review_text := review }] ∧
        (matching uid today
            (saveBookReviewForToday (some uid) today review BackendFault.ok freshId db s).db).length
          = 1) ∧
    (∀ r, matching uid today db = [r] →
        (saveBookReviewForToday (some uid) today review BackendFault.ok freshId db s).op
            = some (SaveOp.updateOp r.id review) ∧
        (matching uid today
            (saveBookReviewForToday (some uid) today review BackendFault.ok freshId db s).db).length
          = 1) := by
  refine ⟨?_, ?_, ?_⟩
  · intro fault
    cases fault with
    | lookupFail m => simpa [saveBookReviewForToday] using hinv
    | writeFail m => simpa [saveBookReviewForToday] using hinv
    | ok =>
        rcases hm : matching uid today db with - | ⟨r, rest⟩
        · have hs := selectSingle_of_no_match uid today db hm
          simp [saveBookReviewForToday, chooseOp, hs, applyOp, matching_append, hm,
            matching_insert_self]
        · rcases rest with - | ⟨r2, rest2⟩
          · have hs := selectSingle_of_one_match uid today db r hm
            simp [saveBookReviewForToday, chooseOp, hs, applyOp, matching_map_updRow, hm]
          · rw [hm] at hinv
            simp at hinv
  · intro hm
    have hs := selectSingle_of_no_match uid today db hm
    refine ⟨?_, ?_, ?_⟩ <;>
      simp [saveBookReviewForToday, chooseOp, hs, applyOp, matching_append, hm,
        matching_insert_self]
  · intro r hm
    have hs := selectSingle_of_one_match uid today db r hm
    refine ⟨?_, ?_⟩ <;>
      simp [saveBookReviewForToday, chooseOp, hs, applyOp, matching_map_updRow, hm]

/-- Witness for claim C1: the scenario of the specification, a first save by
user u1 on 2024-01-15 against an empty table, creates exactly the one expected
row. -/
theorem save_preserves_one_record_per_user_date_witness :
    (saveBookReviewForToday (some "u1") "2024-01-15" "Finished chapter 3" BackendFault.ok 1 []
      { todayBookReview := none, isLoadingBookReview := false }).db
      = [{ id := 1, user_id := "u1", date := "2024-01-15", review_text := "Finished chapter 3" }] := by
  have h := save_preserves_one_record_per_user_date "u1" "2024-01-15" "Finished chapter 3" 1 []
      { todayBookReview := none, isLoadingBookReview := false } (by decide)
  simpa using (h.2.1 rfl).2.1

/-- Counterexample to claim C2: switching the identity to a new user starts a
fetch without clearing the visible record, so before the fetch resolves the
record still holds the previous value and is not empty, contrary to the claim
that it is cleared before the fetch resolves. -/
theorem identity_switch_not_cleared_before_fetch :
    ¬ ((identityChangeSync (some "u2")
        { todayBookReview := some "U1 review", isLoadingBookReview := false }).1.todayBookReview
          = none) := by decide

/-- Claim C2 amended: on an identity switch to a user u2 the provider starts a
fetch and leaves the visible record unchanged until that fetch resolves; once
the fetch resolves for a user with no record, the record is cleared to empty;
and when the identity becomes absent the record is cleared at once and loading
ends. -/
theorem identity_switch_record_cleared_on_fetch_resolution
    (s : BRState) (u2 today : String) (db : List Row)
    (hno : matching u2 today db = []) :
    (identityChangeSync (some u2) s).1 = s ∧
    (identityChangeSync (some u2) s).2 = true ∧
    (fetchTodayBookReviewResolve (selectSingle u2 today db) s).state.todayBookReview = none ∧
    identityChangeSync none s
      = ({ todayBookReview := none, isLoadingBookReview := false }, false) := by
  refine ⟨rfl, rfl, ?_, rfl⟩
  rw [selectSingle_of_no_match u2 today db hno]
  rfl

/-- Witness for the amended claim C2: with the record of user u1 loaded and an
empty table for user u2, the resolved fetch clears the visible record. -/
theorem identity_switch_record_cleared_on_fetch_resolution_witness :
    (fetchTodayBookReviewResolve (selectSingle "u2" "2024-01-16" [])
      { todayBookReview := some "U1 review", isLoadingBookReview := false }).state.todayBookReview
      = none :=
  (identity_switch_record_cleared_on_fetch_resolution
    { todayBookReview := some "U1 review", isLoadingBookReview := false }
    "u2" "2024-01-16" [] (by decide)).2.2.1

/-- Claim C3: starting from an unauthenticated state, a login whose backend
credential verification fails leaves isAuthenticated false and records the
non-empty failure message in error; a subsequent successful login clears error
to none and, through the session-change listener the backend then notifies,
sets isAuthenticated true. -/
theorem login_failure_then_success (s : AuthState) (msg : String) (sess : Session)
    (hauth : s.isAuthenticated = false) (hmsg : msg ≠ "") :
    (login (LoginResult.err msg) s).state.isAuthenticated = false ∧
    (login (LoginResult.err msg) s).state.error = some msg ∧
    msg ≠ "" ∧
    (onAuthStateChange (some sess)
      (login (LoginResult.ok true) (login (LoginResult.err msg) s).state).state).error = none ∧
    (onAuthStateChange (some sess)
      (login (LoginResult.ok true) (login (LoginResult.err msg) s).state).state).isAuthenticated
      = true :=
  ⟨hauth, rfl, hmsg, rfl, rfl⟩

/-- Witness for claim C3 at a concrete failing message and session payload. -/
theorem login_failure_then_success_witness :
    (login (LoginResult.err "Invalid login credentials")
        { user := none, isAuthenticated := false, isLoading := true, error := none }).state.error
      = some "Invalid login credentials" ∧
    (onAuthStateChange
      (some { id := "u1", email := some "alice@example.com", phone := none,
              metaName := some "Alice" })
      (login (LoginResult.ok true)
        (login (LoginResult.err "Invalid login credentials")
          { user := none, isAuthenticated := false, isLoading := true,
            error := none }).state).state).isAuthenticated = true := by
  have h := login_failure_then_success
      { user := none, isAuthenticated := false, isLoading := true, error := none }
      "Invalid login credentials"
      { id := "u1", email := some "alice@example.com", phone := none, metaName := some "Alice" }
      rfl (by decide)
  exact ⟨h.2.1, h.2.2.2.2⟩

/-- Claim C4: for a user with no book-review record for today, the fetch
resolution sets the visible record to empty with no toast and no escaping
error, the backend not-found outcome being a normal empty state (the context
keeps no error field, so nothing is recorded); any other fetch failure
produces an error toast and still does not throw out of the context. -/
theorem fetch_not_found_is_normal_empty_state
    (uid today msg : String) (db : List Row) (s : BRState)
    (hnone : matching uid today db = []) :
    (fetchTodayBookReviewResolve (selectSingle uid today db) s).state.todayBookReview = none ∧
    (fetchTodayBookReviewResolve (selectSingle uid today db) s).toasts = [] ∧
    (fetchTodayBookReviewResolve (selectSingle uid today db) s).thrown = false ∧
    (fetchTodayBookReviewResolve (SingleResult.failure msg) s).toasts
      = [Toast.error "Failed to load today\x27s book review"] ∧
    (fetchTodayBookReviewResolve (SingleResult.failure msg) s).thrown = false := by
  rw [selectSingle_of_no_match uid today db hnone]
  exact ⟨rfl, rfl, rfl, rfl, rfl⟩

/-- Witness for claim C4: a table holding only a row of another user yields
the empty state for user u9. -/
theorem fetch_not_found_is_normal_empty_state_witness :
    (fetchTodayBookReviewResolve
      (selectSingle "u9" "2024-02-01"
        [{ id := 7, user_id := "other", date := "2024-02-01", review_text := "x" }])
      { todayBookReview := none, isLoadingBookReview := true }).state.todayBookReview = none := by
  have h := fetch_not_found_is_normal_empty_state "u9" "2024-02-01" "boom"
      [{ id := 7, user_id := "other", date := "2024-02-01", review_text := "x" }]
      { todayBookReview := none, isLoadingBookReview := true } (by decide)
  exact h.1

/-- Claim C5: every backend failure during saveBookReviewForToday, whether a
lookup error other than not-found or an insert or update error, produces the
failure toast and re-raises the error to the caller; and it is the only public
context operation letting a backend error escape: the fault-free save, the
fetch resolution, and every session-context operation never throw. -/
theorem save_failure_notifies_and_rethrows
    (uid today review lmsg wmsg phone : String) (freshId : Nat) (db : List Row) (s : BRState)
    (res : SingleResult) (csRes : Except String (Option Session)) (lRes : LoginResult)
    (suRes : SignUpResult) (pw : ProfileWriteResult) (loRes rpRes upRes : Option String)
    (a : AuthState) :
    (saveBookReviewForToday (some uid) today review (BackendFault.lookupFail lmsg)
        freshId db s).toasts = [Toast.error "Failed to save book review"] ∧
    (saveBookReviewForToday (some uid) today review (BackendFault.lookupFail lmsg)
        freshId db s).thrown = true ∧
    (saveBookReviewForToday (some uid) today review (BackendFault.writeFail wmsg)
        freshId db s).toasts = [Toast.error "Failed to save book review"] ∧
    (saveBookReviewForToday (some uid) today review (BackendFault.writeFail wmsg)
        freshId db s).thrown = true ∧
    (saveBookReviewForToday (some uid) today review BackendFault.ok freshId db s).thrown = false ∧
    (fetchTodayBookReviewResolve res s).thrown = false ∧
    (checkSession csRes a).thrown = false ∧
    (login lRes a).thrown = false ∧
    (signup phone suRes pw a).thrown = false ∧
    (logout loRes a).thrown = false ∧
    (resetPassword rpRes a).thrown = false ∧
    (updatePassword upRes a).thrown = false := by
  refine ⟨rfl, rfl, rfl, rfl, rfl, ?_, ?_, ?_, ?_, ?_, ?_, ?_⟩
  · cases res <;> rfl
  · rcases csRes with m | o
    · rfl
    · cases o <;> rfl
  · cases lRes <;> rfl
  · cases suRes with
    | err m => simp only [signup]; split <;> rfl
    | okUser u => cases pw <;> rfl
    | okNoUser => rfl
  · cases loRes <;> rfl
  · cases rpRes <;> rfl
  · cases upRes <;> rfl

/-- Claim C6: every session-context operation returns normally to its caller
regardless of the backend outcome, and on completion of every operation,
success or failure, the loading flag is false. -/
theorem auth_operations_absorb_errors_and_end_loading
    (csRes : Except String (Option Session)) (lRes : LoginResult) (phone : String)
    (suRes : SignUpResult) (pw : ProfileWriteResult) (loRes rpRes upRes : Option String)
    (s : AuthState) :
    ((checkSession csRes s).thrown = false ∧ (checkSession csRes s).state.isLoading = false) ∧
    ((login lRes s).thrown = false ∧ (login lRes s).state.isLoading = false) ∧
    ((signup phone suRes pw s).thrown = false ∧
      (signup phone suRes pw s).state.isLoading = false) ∧
    ((logout loRes s).thrown = false ∧ (logout loRes s).state.isLoading = false) ∧
    ((resetPassword rpRes s).thrown = false ∧
      (resetPassword rpRes s).state.isLoading = false) ∧
    ((updatePassword upRes s).thrown = false ∧
      (updatePassword upRes s).state.isLoading = false) := by
  refine ⟨?_, ?_, ?_, ?_, ?_, ?_⟩
  · rcases csRes with m | o
    · exact ⟨rfl, rfl⟩
    · cases o <;> exact ⟨rfl, rfl⟩
  · cases lRes <;> exact ⟨rfl, rfl⟩
  · cases suRes with
    | err m => simp only [signup]; split <;> exact ⟨rfl, rfl⟩
    | okUser u => cases pw <;> exact ⟨rfl, rfl⟩
    | okNoUser => exact ⟨rfl, rfl⟩
  · cases loRes <;> exact ⟨rfl, rfl⟩
  · cases rpRes <;> exact ⟨rfl, rfl⟩
  · cases upRes <;> exact ⟨rfl, rfl⟩

/-- Counterexample to claim C7: a call made with no identity returns before
the guarded try block, so a loading flag that was true at entry is still true
when the call completes, contrary to the claim that the flag is false when
every call completes. -/
theorem save_without_identity_leaves_loading_cex :
    ¬ ((saveBookReviewForToday none "2024-01-15" "r" BackendFault.ok 0 []
        { todayBookReview := none, isLoadingBookReview := true }).state.isLoadingBookReview
          = false) := by decide

/-- Claim C7 amended: with no identity the operation emits the error toast and
changes nothing else, neither the local state (the loading flag included) nor
the table, issuing no write and throwing nothing; and for every call made with
an identity present, the loading flag is false when the call completes,
whatever the backend outcome. -/
theorem save_without_identity_noop (uid today review : String) (fault : BackendFault)
    (freshId : Nat) (db : List Row) (s : BRState) :
    (saveBookReviewForToday none today review fault freshId db s).state = s ∧
    (saveBookReviewForToday none today review fault freshId db s).db = db ∧
    (saveBookReviewForToday none today review fault freshId db s).op = none ∧
    (saveBookReviewForToday none today review fault freshId db s).toasts
      = [Toast.error "You must be logged in to save a book review"] ∧
    (saveBookReviewForToday none today review fault freshId db s).thrown = false ∧
    (saveBookReviewForToday (some uid) today review fault freshId db s).state.isLoadingBookReview
      = false := by
  refine ⟨rfl, rfl, rfl, rfl, rfl, ?_⟩
  cases fault <;> rfl

/-- Claim C8: signup with an already-registered email records the distinct
message, navigates to the login route, resolves null and issues no profile
write; a fully successful signup issues exactly one profile upsert keyed by
the new id and resolves the new-account result; and every other handled
failure, a backend error, a failing profile upsert, or success without a user
object, resolves null. -/
theorem signup_branches (phone uid pmsg m : String) (s : AuthState)
    (hm : strContains m "User already registered" = false) :
    ((signup phone (SignUpResult.err "User already registered") ProfileWriteResult.ok s).ret
        = none ∧
     (signup phone (SignUpResult.err "User already registered")
        ProfileWriteResult.ok s).profileUpsert = none ∧
     (signup phone (SignUpResult.err "User already registered") ProfileWriteResult.ok s).navTo
        = some "/login?email-exists=true" ∧
     (signup phone (SignUpResult.err "User already registered") ProfileWriteResult.ok s).state.error
        = some "This email is already registered. Please log in instead.") ∧
    ((signup phone (SignUpResult.okUser uid) ProfileWriteResult.ok s).ret
        = some { isNewAccount := true } ∧
     (signup phone (SignUpResult.okUser uid) ProfileWriteResult.ok s).profileUpsert
        = some { id := uid, phone := phone }) ∧
    ((signup phone (SignUpResult.err m) ProfileWriteResult.ok s).ret = none ∧
     (signup phone (SignUpResult.okUser uid) (ProfileWriteResult.err pmsg) s).ret = none ∧
     (signup phone SignUpResult.okNoUser ProfileWriteResult.ok s).ret = none) := by
  have hpos : strContains "User already registered" "User already registered" = true := by decide
  refine ⟨?_, ⟨rfl, rfl⟩, ⟨?_, rfl, rfl⟩⟩
  · simp only [signup, hpos]
    exact ⟨rfl, rfl, rfl, rfl⟩
  · simp only [signup, hm]
    rfl

/-- Witness for claim C8 at concrete messages: an unrelated backend error
resolves null, and a successful signup of user u7 upserts the profile row of
u7 with the given phone. -/
theorem signup_branches_witness :
    (signup "555" (SignUpResult.err "Email rate limit exceeded") ProfileWriteResult.ok
      { user := none, isAuthenticated := false, isLoading := true, error := none }).ret = none ∧
    (signup "555" (SignUpResult.okUser "u7") ProfileWriteResult.ok
      { user := none, isAuthenticated := false, isLoading := true, error := none }).profileUpsert
      = some { id := "u7", phone := "555" } := by
  have h := signup_branches "555" "u7" "insert failed" "Email rate limit exceeded"
      { user := none, isAuthenticated := false, isLoading := true, error := none } (by decide)
  exact ⟨h.2.2.1, h.2.1.2⟩

/-- Counterexample to claim C9: for a session payload whose metadata name is
present but empty, the code falls through to the local part of the email while
the claimed derivation keeps the metadata name, so the derived display name
differs from the claim at a concrete payload. -/
theorem identity_name_derivation_cex :
    some (deriveName (some "") (some "alice@example.com"))
      ≠ specDeriveName (some "") (some "alice@example.com") := by decide

/-- Claim C9 amended: the derived display name is the metadata name when
present and non-empty; otherwise the local part of the email when the email is
present with a non-empty local part; otherwise the literal User; the id is
passed through and the email and phone fields default to the empty string when
absent. -/
theorem identity_derivation_characterization (sess : Session) :
    (deriveIdentity sess).id = sess.id ∧
    (∀ n, sess.metaName = some n → n ≠ "" → (deriveIdentity sess).name = n) ∧
    (∀ e, (sess.metaName = none ∨ sess.metaName = some "") → sess.email = some e →
        emailLocalPartStr e ≠ "" → (deriveIdentity sess).name = emailLocalPartStr e) ∧
    ((sess.metaName = none ∨ sess.metaName = some "") →
        (sess.email = none ∨ ∃ e, sess.email = some e ∧ emailLocalPartStr e = "") →
        (deriveIdentity sess).name = "User") ∧
    (deriveIdentity sess).email = sess.email.getD "" ∧
    (deriveIdentity sess).phone = sess.phone.getD "" := by
  refine ⟨rfl, ?_, ?_, ?_, rfl, rfl⟩
  · intro n hn hne
    simp [deriveIdentity, deriveName, strOrElse, hn, hne]
  · intro e hmeta he hle
    rcases hmeta with h | h <;>
      simp [deriveIdentity, deriveName, strOrElse, h, he, hle]
  · intro hmeta hemail
    rcases hmeta with h | h <;>
      rcases hemail with he | ⟨e, he, hl⟩ <;>
        simp [deriveIdentity, deriveName, strOrElse, h, he, *]

/-- Witness for the amended claim C9: a payload carrying the metadata name
Alice derives the display name Alice. -/
theorem identity_derivation_characterization_witness :
    (deriveIdentity
        { id := "u1", email := some "alice@example.com", phone := some "123",
          metaName := some "Alice" }).name = "Alice" :=
  ((identity_derivation_characterization
      { id := "u1", email := some "alice@example.com", phone := some "123",
        metaName := some "Alice" }).2.1) "Alice" rfl (by decide)

/-- Claim C10: when saveBookReviewForToday fails at the existence lookup or at
the insert or update, the visible record is unchanged while the error
propagates to the caller; the local record is assigned the new content only on
the path where the backend write succeeded. -/
theorem save_failure_keeps_local_record (uid today review lmsg wmsg : String)
    (freshId : Nat) (db : List Row) (s : BRState) :
    ((saveBookReviewForToday (some uid) today review (BackendFault.lookupFail lmsg)
        freshId db s).state.todayBookReview = s.todayBookReview ∧
     (saveBookReviewForToday (some uid) today review (BackendFault.lookupFail lmsg)
        freshId db s).thrown = true) ∧
    ((saveBookReviewForToday (some uid) today review (BackendFault.writeFail wmsg)
        freshId db s).state.todayBookReview = s.todayBookReview ∧
     (saveBookReviewForToday (some uid) today review (BackendFault.writeFail wmsg)
        freshId db s).thrown = true) ∧
    (saveBookReviewForToday (some uid) today review BackendFault.ok
        freshId db s).state.todayBookReview = some review :=
  ⟨⟨rfl, rfl⟩, ⟨rfl, rfl⟩, rfl⟩

end BetheEl
